import Mathlib

/-!
Verification development for the SmartBuilder Pro Lite backend
(src/backend/main.py).  The scoring engine, the geodata gateway and the
territory-creation orchestrator are embedded shallowly:

* coordinates, areas and scores are rationals (Python floats are rationals;
  the scoring arithmetic only adds fixed constants, divides by constants and
  compares against constant thresholds);
* distances are real numbers, since the haversine formula uses trigonometry;
* Python truthiness is modelled explicitly: a list is truthy iff non-empty,
  and an Optional float is truthy iff it is present AND non-zero (this last
  point matters: the scorers test `if dist and dist < t`, so a distance of
  exactly 0 earns no bonus);
* code that raises is embedded with Except.
-/

/-- A latitude/longitude pair in degrees.  Shapely points are accessed in the
source as `point.y` (latitude) and `point.x` (longitude); the orchestrator
stores the centroid as a lat/lon mapping. -/
structure GeoPoint where
  lat : ℚ
  lon : ℚ
deriving DecidableEq

/-- One amenity record as built by `get_amenities_in_area`: OSM node id,
coordinates and an opaque tag mapping. -/
structure AmenityRec where
  id : ℕ
  lat : ℚ
  lon : ℚ
  tags : List (String × String)
deriving DecidableEq

/-- One road record as built by `get_roads_in_polygon`: id plus tags (only the
count of roads is ever used by the scorers). -/
structure RoadRec where
  id : ℕ
  tags : List (String × String)
deriving DecidableEq

/-- An AmenitySet: the Python dict mapping category name to the list of
amenity records, modelled as an association list (insertion ordered, as the
dict built by `get_amenities_in_area`). -/
def AmenitySet : Type := List (String × List AmenityRec)

/-- Association-list lookup used for the in-memory stores and amenity dicts
(Python `d[k]` / `d.get(k)`). -/
def lookupStr {β : Type} (l : List (String × β)) (key : String) : Option β :=
  match l with
  | [] => none
  | (k, v) :: rest => if key = k then some v else lookupStr rest key

/-- Python `amenities.get(key)` as used by every scorer: an absent key and an
empty list are indistinguishable at every use site (truthiness tests and
`len`), so the default is the empty list. -/
def aget (amenities : AmenitySet) (key : String) : List AmenityRec :=
  (lookupStr amenities key).getD []

/-- The 14 fixed amenity categories queried by `get_amenities_in_area`. -/
def amenity_types : List String :=
  ["school", "hospital", "pharmacy", "police", "fire_station",
   "bus_station", "parking", "restaurant", "cafe", "bank",
   "post_office", "library", "park", "playground"]

/-- Python `math.radians`. -/
noncomputable def radians (x : ℚ) : ℝ := (x : ℝ) * Real.pi / 180

/-- Python `math.atan2` on real numbers (standard piecewise definition; the
source only ever reaches the `x > 0` branch since `sqrt (1 - a) > 0` there,
but the full function is embedded). -/
noncomputable def atan2 (y x : ℝ) : ℝ :=
  if 0 < x then Real.arctan (y / x)
  else if x < 0 ∧ 0 ≤ y then Real.arctan (y / x) + Real.pi
  else if x < 0 ∧ y < 0 then Real.arctan (y / x) - Real.pi
  else if x = 0 ∧ 0 < y then Real.pi / 2
  else if x = 0 ∧ y < 0 then -(Real.pi / 2)
  else 0

/-- Source `haversine_distance(lat1, lon1, lat2, lon2)`: great-circle distance in
meters on a sphere of radius 6371000. -/
noncomputable def haversine_distance (lat1 lon1 lat2 lon2 : ℚ) : ℝ :=
  let R : ℝ := 6371000
  let phi1 := radians lat1
  let phi2 := radians lat2
  let delta_phi := radians (lat2 - lat1)
  let delta_lambda := radians (lon2 - lon1)
  let a := Real.sin (delta_phi / 2) ^ 2 +
    Real.cos phi1 * Real.cos phi2 * Real.sin (delta_lambda / 2) ^ 2
  let c := 2 * atan2 (Real.sqrt a) (Real.sqrt (1 - a))
  R * c

/-- Source `find_closest(point, amenities)`: None on an empty list, otherwise the
minimum haversine distance from the point to the records.  (The source folds
`min` starting from infinity and maps the leftover infinity back to None;
with real-valued, hence finite, distances that equals folding from the first
element.) -/
noncomputable def find_closest (point : GeoPoint) (amenities : List AmenityRec) : Option ℝ :=
  match amenities with
  | [] => none
  | a :: rest =>
    some (rest.foldl
      (fun m b => min m (haversine_distance point.lat point.lon b.lat b.lon))
      (haversine_distance point.lat point.lon a.lat a.lon))

/-- One guarded proximity block shared by `calculate_safety_score` and
`calculate_accessibility_score`:

if the category list is truthy (non-empty), take the nearest distance and test
`if dist and dist < d1: score += p1 elif dist and dist < d2: score += p2`.
Python float truthiness makes `dist` falsy both when it is None and when it is
exactly 0.0, hence the `d ≠ 0` conjuncts. -/
noncomputable def proximityBonus (centroid : GeoPoint) (l : List AmenityRec)
    (d1 p1 d2 p2 : ℚ) (score : ℚ) : ℚ :=
  if l.isEmpty then score
  else
    match find_closest centroid l with
    | none => score
    | some d =>
      if d ≠ 0 ∧ d < (d1 : ℝ) then score + p1
      else if d ≠ 0 ∧ d < (d2 : ℝ) then score + p2
      else score

/-- Source `calculate_safety_score(centroid, amenities)`. -/
noncomputable def calculate_safety_score (centroid : GeoPoint) (amenities : AmenitySet) : ℚ :=
  let score : ℚ := 50
  let score := proximityBonus centroid (aget amenities "police") 2000 20 5000 10 score
  let score := proximityBonus centroid (aget amenities "fire_station") 3000 15 7000 7 score
  let score := proximityBonus centroid (aget amenities "hospital") 3000 15 5000 10 score
  min score 100

/-- Source `calculate_efficiency_score(roads, area_sqm, amenities)`.  The Python
division `len(roads) / (area_sqm / 1000000)` raises ZeroDivisionError when the
divisor is zero; that is embedded as the error case. -/
def calculate_efficiency_score (roads : List RoadRec) (area_sqm : ℚ)
    (amenities : AmenitySet) : Except Unit ℚ :=
  if area_sqm / 1000000 = 0 then .error ()
  else
    let score : ℚ := 40
    let road_density : ℚ := (roads.length : ℚ) / (area_sqm / 1000000)
    let score :=
      if road_density > 10 then score + 20
      else if road_density > 5 then score + 15
      else if road_density > 2 then score + 10
      else score
    let score := if (aget amenities "bus_station").isEmpty then score else score + 15
    let parking_count := (aget amenities "parking").length
    let score :=
      if parking_count > 2 then score + 10
      else if parking_count > 0 then score + 5
      else score
    let commerce := (aget amenities "restaurant").length +
      (aget amenities "cafe").length + (aget amenities "bank").length
    let score :=
      if commerce > 10 then score + 15
      else if commerce > 5 then score + 10
      else score
    .ok (min score 100)

/-- Source `calculate_accessibility_score(centroid, amenities)`: the services table
is iterated in Python dict insertion order; each entry is the same guarded
proximity block with thresholds `(max_dist, max_dist * 2)` and points
`(points, points / 2)`. -/
noncomputable def calculate_accessibility_score (centroid : GeoPoint) (amenities : AmenitySet) : ℚ :=
  let score : ℚ := 30
  let score := proximityBonus centroid (aget amenities "school") 1000 20 (1000 * 2) (20 / 2) score
  let score := proximityBonus centroid (aget amenities "hospital") 3000 15 (3000 * 2) (15 / 2) score
  let score := proximityBonus centroid (aget amenities "pharmacy") 500 10 (500 * 2) (10 / 2) score
  let score := proximityBonus centroid (aget amenities "park") 1000 10 (1000 * 2) (10 / 2) score
  let score := proximityBonus centroid (aget amenities "post_office") 2000 5 (2000 * 2) (5 / 2) score
  let score := proximityBonus centroid (aget amenities "library") 2000 5 (2000 * 2) (5 / 2) score
  min score 100

/-- Source `calculate_environmental_score(amenities)`. -/
def calculate_environmental_score (amenities : AmenitySet) : ℚ :=
  let score : ℚ := 50
  let parks_count := (aget amenities "park").length + (aget amenities "playground").length
  let score :=
    if parks_count > 5 then score + 25
    else if parks_count > 2 then score + 15
    else if parks_count > 0 then score + 10
    else score
  min score 100

/-- Source `generate_recommendations(safety, efficiency, accessibility,
environmental, amenities)`: rule list evaluated in fixed order, joined with
newlines. -/
def generate_recommendations (safety efficiency accessibility environmental : ℚ)
    (amenities : AmenitySet) : String :=
  let recs : List String := []
  let recs := if safety < 60 then
      recs ++ ["• Улучшить инфраструктуру безопасности (полиция, пожарные станции)"]
    else recs
  let recs := if efficiency < 60 then
      recs ++ ["• Развить дорожную сеть и общественный транспорт"]
    else recs
  let recs := if accessibility < 60 then
      let missing : List String :=
        (if (aget amenities "school").isEmpty then ["школы"] else []) ++
        (if (aget amenities "hospital").isEmpty then ["медучреждения"] else []) ++
        (if (aget amenities "park").isEmpty then ["парки"] else [])
      if missing.isEmpty then recs
      else recs ++ ["• Добавить: " ++ String.intercalate ", " missing]
    else recs
  let recs := if environmental < 60 then
      recs ++ ["• Увеличить количество зеленых зон"]
    else recs
  let recs := if recs.isEmpty then
      ["• Территория хорошо развита. Поддерживайте текущее состояние."]
    else recs
  String.intercalate "\n" recs

/-- Python `round(x, 2)` on the rational model: round `x * 100` to an integer
and divide back.  (CPython rounds ties to even; Mathlib's `round` rounds ties
up.  Every theorem below uses this single `round2` on both sides, so the tie
rule never influences a statement.) -/
def round2 (x : ℚ) : ℚ := (round (x * 100) : ℚ) / 100

/-- Source `get_amenities_in_area(lat, lon, radius)` on a cache miss.  The external
Overpass call for one category is modelled by `resp`: `.ok l` when the query
succeeds with records `l`, `.error ()` when it raises.  The body queries each
of the 14 categories independently inside its own try/except, storing the
empty list on failure; the TTL cache is time-dependent plumbing outside this
model. -/
def get_amenities_in_area (resp : String → Except Unit (List AmenityRec))
    (lat lon : ℚ) (radius : ℕ) : AmenitySet :=
  amenity_types.map (fun amenity =>
    (amenity, match resp amenity with
      | .ok l => l
      | .error _ => []))

/-- Source `get_roads_in_polygon(coordinates)`: the whole body sits in a try/except
returning the empty list on any failure; the bounding-box Overpass query is
the external call, modelled by `resp`. -/
def get_roads_in_polygon (resp : Except Unit (List RoadRec))
    (coordinates : List (List (ℚ × ℚ))) : List RoadRec :=
  match resp with
  | .ok roads => roads
  | .error _ => []

/-- GeoJSON coordinates as received by the territory endpoint: a list of
rings, each ring a list of (longitude, latitude) pairs; only ring 0 is
used. -/
def Coordinates : Type := List (List (ℚ × ℚ))

/-- Ring 0 of the GeoJSON coordinate list (`territory_data.coordinates[0]`). -/
def ringOf (coordinates : Coordinates) : List (ℚ × ℚ) := coordinates.headD []

/-- Signed shoelace sum of a ring of (x, y) pairs. -/
def shoelaceSum (pts : List (ℚ × ℚ)) : ℚ :=
  ((pts.zip (pts.rotate 1)).map
    (fun pq => pq.1.1 * pq.2.2 - pq.2.1 * pq.1.2)).sum

/-- Modelled from the spec: shapely `polygon.area` is not in src/; §4.1
describes it as the planar (shoelace) area in native coordinate units, which
is the absolute shoelace sum halved. -/
def shapelyArea (pts : List (ℚ × ℚ)) : ℚ := |shoelaceSum pts| / 2

/-- Modelled from the spec: shapely `polygon.centroid` is not in src/; §4.1
says to use the standard (area-weighted) polygon centroid formula.  For a
degenerate zero-area ring the formula divides by zero, which the rational
model sends to 0; no theorem below inspects the centroid of a degenerate
ring. -/
def shapelyCentroid (pts : List (ℚ × ℚ)) : GeoPoint :=
  let A := shoelaceSum pts / 2
  let cx := ((pts.zip (pts.rotate 1)).map
    (fun pq => (pq.1.1 + pq.2.1) * (pq.1.1 * pq.2.2 - pq.2.1 * pq.1.2))).sum / (6 * A)
  let cy := ((pts.zip (pts.rotate 1)).map
    (fun pq => (pq.1.2 + pq.2.2) * (pq.1.1 * pq.2.2 - pq.2.1 * pq.1.2))).sum / (6 * A)
  { lat := cy, lon := cx }

/-- Request body of POST /territories. -/
structure TerritoryCreate where
  name : String
  project_id : String
  coordinates : Coordinates

/-- A stored territory record (the dict put into TERRITORIES). -/
structure TerritoryRec where
  id : String
  name : String
  project_id : String
  coordinates : Coordinates
  area_sqm : ℚ
  centroid : GeoPoint
  created_at : String

/-- A stored assessment record (the dict put into ASSESSMENTS, keyed by
territory id). -/
structure AssessmentRec where
  id : String
  territory_id : String
  safety_score : ℚ
  efficiency_score : ℚ
  accessibility_score : ℚ
  environmental_score : ℚ
  overall_score : ℚ
  recommendations : String
  amenities_count : List (String × ℕ)
  roads_count : ℕ
  created_at : String
deriving DecidableEq

/-- The three in-memory stores (PROJECTS holds only the fields the
orchestrator touches: the `territories_count` per project id). -/
structure StoreState where
  projects : List (String × ℕ)
  territories : List (String × TerritoryRec)
  assessments : List (String × AssessmentRec)

/-- Overwrite the value at a key of an association list
(`PROJECTS[pid]["territories_count"] += 1`). -/
def setKey {β : Type} (l : List (String × β)) (key : String) (v : β) :
    List (String × β) :=
  l.map (fun p => if p.1 = key then (key, v) else p)

/-- The try-block of `create_territory`: fetch amenities and roads, run the
four scorers, average, generate recommendations and build the assessment
dict.  The only step of the block that can raise in the model is the road
density division in `calculate_efficiency_score`; its error aborts the block
exactly as a Python exception would. -/
noncomputable def assess (amenResp : String → Except Unit (List AmenityRec))
    (roadsResp : Except Unit (List RoadRec)) (centroid : GeoPoint)
    (area_sqm : ℚ) (coordinates : Coordinates)
    (assessment_id territory_id created_at : String) : Except Unit AssessmentRec :=
  let amenities := get_amenities_in_area amenResp centroid.lat centroid.lon 1000
  let roads := get_roads_in_polygon roadsResp coordinates
  let safety := calculate_safety_score centroid amenities
  match calculate_efficiency_score roads area_sqm amenities with
  | .error e => .error e
  | .ok efficiency =>
    let accessibility := calculate_accessibility_score centroid amenities
    let environmental := calculate_environmental_score amenities
    let overall := (safety + efficiency + accessibility + environmental) / 4
    let recommendations :=
      generate_recommendations safety efficiency accessibility environmental amenities
    .ok {
      id := assessment_id,
      territory_id := territory_id,
      safety_score := round2 safety,
      efficiency_score := round2 efficiency,
      accessibility_score := round2 accessibility,
      environmental_score := round2 environmental,
      overall_score := round2 overall,
      recommendations := recommendations,
      amenities_count := amenities.map (fun p => (p.1, p.2.length)),
      roads_count := roads.length,
      created_at := created_at }

/-- POST /territories.  Fresh uuids and timestamps are passed in as
parameters; the external Overpass outcomes as `amenResp` / `roadsResp`.  The
HTTPException for an unknown project id is the error case.  The territory is
built and stored before the try-block; a failing assessment is logged and
swallowed, so the endpoint still returns the territory. -/
noncomputable def create_territory (amenResp : String → Except Unit (List AmenityRec))
    (roadsResp : Except Unit (List RoadRec))
    (territory_id assessment_id created_at : String)
    (territory_data : TerritoryCreate) (st : StoreState) :
    Except Unit (StoreState × TerritoryRec) :=
  match lookupStr st.projects territory_data.project_id with
  | none => .error ()
  | some cnt =>
    let ring := ringOf territory_data.coordinates
    let area_sqm := shapelyArea ring * 111320 * 111320
    let centroid := shapelyCentroid ring
    let territory : TerritoryRec := {
      id := territory_id,
      name := territory_data.name,
      project_id := territory_data.project_id,
      coordinates := territory_data.coordinates,
      area_sqm := area_sqm,
      centroid := centroid,
      created_at := created_at }
    let st1 : StoreState := {
      projects := setKey st.projects territory_data.project_id (cnt + 1),
      territories := (territory_id, territory) :: st.territories,
      assessments := st.assessments }
    match assess amenResp roadsResp centroid area_sqm territory_data.coordinates
        assessment_id territory_id created_at with
    | .ok a =>
      .ok ({ st1 with assessments := (territory_id, a) :: st1.assessments }, territory)
    | .error _ => .ok (st1, territory)

/-- GET /assessments/(territory_id): 404 when the territory has no stored
assessment. -/
def get_assessment (st : StoreState) (territory_id : String) : Except Unit AssessmentRec :=
  match lookupStr st.assessments territory_id with
  | none => .error ()
  | some a => .ok a

/-- Modelled from the spec, for the refinement claim about the safety scorer:
one category bonus of §4.2, "+p1 if nearest amenity < d1 m, else +p2 if
< d2 m", a missing category contributing 0. -/
noncomputable def specProximityBonus (centroid : GeoPoint) (l : List AmenityRec)
    (d1 p1 d2 p2 : ℚ) : ℚ :=
  match find_closest centroid l with
  | none => 0
  | some d =>
    if d < (d1 : ℝ) then p1
    else if d < (d2 : ℝ) then p2
    else 0

/-- Modelled from the spec, for the refinement claim about the safety scorer:
base 50, the three independent additive category bonuses, clamped to 100. -/
noncomputable def specSafetyScore (centroid : GeoPoint) (amenities : AmenitySet) : ℚ :=
  min (50 + specProximityBonus centroid (aget amenities "police") 2000 20 5000 10
    + specProximityBonus centroid (aget amenities "fire_station") 3000 15 7000 7
    + specProximityBonus centroid (aget amenities "hospital") 3000 15 5000 10) 100

/-! ### Concrete fixtures used by witnesses and counterexamples -/

/-- The AmenitySet with every one of the 14 categories mapped to the empty
list. -/
def emptyAmenities : AmenitySet := amenity_types.map (fun a => (a, []))

/-- External amenity responses in which every per-category query fails. -/
def allErrResp : String → Except Unit (List AmenityRec) := fun _ => .error ()

/-- The origin point. -/
def origin : GeoPoint := ⟨0, 0⟩

/-- A single amenity record sitting at the origin. -/
def recAtOrigin : AmenityRec := ⟨1, 0, 0, []⟩

/-- An AmenitySet whose only entry is one police amenity at the origin. -/
def policeAtOrigin : AmenitySet := [("police", [recAtOrigin])]

/-! ### Helper lemmas about the geometry functions -/

lemma haversine_same (lat lon : ℚ) : haversine_distance lat lon lat lon = 0 := by
  simp only [haversine_distance]
  norm_num [radians, atan2, Real.arctan_zero]

lemma sin_sq_radians_sub_swap (p q : ℚ) :
    Real.sin (radians (p - q) / 2) ^ 2 = Real.sin (radians (q - p) / 2) ^ 2 := by
  have h : radians (p - q) / 2 = -(radians (q - p) / 2) := by
    simp only [radians]
    push_cast
    ring
  rw [h, Real.sin_neg]
  ring

lemma haversine_comm (lat1 lon1 lat2 lon2 : ℚ) :
    haversine_distance lat1 lon1 lat2 lon2 = haversine_distance lat2 lon2 lat1 lon1 := by
  simp only [haversine_distance]
  rw [sin_sq_radians_sub_swap lat2 lat1, sin_sq_radians_sub_swap lon2 lon1,
    mul_comm (Real.cos (radians lat1)) (Real.cos (radians lat2))]

lemma find_closest_nil (c : GeoPoint) : find_closest c [] = none := rfl

lemma find_closest_eq_none_iff (c : GeoPoint) (l : List AmenityRec) :
    find_closest c l = none ↔ l = [] := by
  cases l <;> simp [find_closest]

/-! ### Helper lemmas about the proximity blocks -/

lemma prox_nil (c : GeoPoint) (d1 p1 d2 p2 s : ℚ) :
    proximityBonus c [] d1 p1 d2 p2 s = s := rfl

lemma prox_ge (c : GeoPoint) (l : List AmenityRec) (d1 p1 d2 p2 : ℚ)
    (h1 : 0 ≤ p1) (h2 : 0 ≤ p2) (s : ℚ) :
    s ≤ proximityBonus c l d1 p1 d2 p2 s := by
  unfold proximityBonus
  split
  · exact le_rfl
  · split
    · exact le_rfl
    · split_ifs <;> linarith

lemma prox_of_zero (c : GeoPoint) (l : List AmenityRec) (d1 p1 d2 p2 s : ℚ)
    (h : find_closest c l = some 0) :
    proximityBonus c l d1 p1 d2 p2 s = s := by
  cases l with
  | nil => simp [find_closest] at h
  | cons a rest =>
    unfold proximityBonus
    rw [h]
    simp

/-! ### Helper lemmas about association lists -/

lemma aget_cons_self (a : AmenitySet) (k : String) (v : List AmenityRec) :
    aget ((k, v) :: a) k = v := by
  simp [aget, lookupStr]

lemma aget_cons_ne (a : AmenitySet) (k : String) (v : List AmenityRec) (key : String)
    (h : key ≠ k) :
    aget ((k, v) :: a) key = aget a key := by
  simp [aget, lookupStr, h]

lemma lookupStr_map_apply {β : Type} (f : String → β) (l : List String) (k : String)
    (h : k ∈ l) :
    lookupStr (l.map fun a => (a, f a)) k = some (f k) := by
  induction l with
  | nil => simp at h
  | cons a rest ih =>
    simp only [List.map_cons, lookupStr]
    by_cases hk : k = a
    · rw [if_pos hk, hk]
    · rw [if_neg hk]
      exact ih ((List.mem_cons.mp h).resolve_left hk)

/-! ### C8 -/

/-- C8: the distance function is reflexive-zero and symmetric:
`distanceMeters(p, p) = 0` for every point, and
`distanceMeters(a, b) = distanceMeters(b, a)` for every pair. -/
theorem haversine_refl_zero_and_symm (a b : GeoPoint) :
    haversine_distance a.lat a.lon a.lat a.lon = 0 ∧
    haversine_distance a.lat a.lon b.lat b.lon =
      haversine_distance b.lat b.lon a.lat a.lon :=
  ⟨haversine_same a.lat a.lon, haversine_comm a.lat a.lon b.lat b.lon⟩

lemma le_ite_add2 {c1 c2 : Prop} [Decidable c1] [Decidable c2] (s a b : ℚ)
    (ha : 0 ≤ a) (hb : 0 ≤ b) :
    s ≤ if c1 then s + a else if c2 then s + b else s := by
  split_ifs <;> linarith

lemma le_ite_add3 {c1 c2 c3 : Prop} [Decidable c1] [Decidable c2] [Decidable c3]
    (s a b d : ℚ) (ha : 0 ≤ a) (hb : 0 ≤ b) (hd : 0 ≤ d) :
    s ≤ if c1 then s + a else if c2 then s + b else if c3 then s + d else s := by
  split_ifs <;> linarith

lemma le_ite_skip_add {c : Prop} [Decidable c] (s a : ℚ) (ha : 0 ≤ a) :
    s ≤ if c then s else s + a := by
  split_ifs <;> linarith

/-! ### C1 -/

/-- C1: for every AmenitySet, road list and positive area, each of the four
sub-score functions returns a value in [0, 100]; the efficiency scorer,
which can only raise on zero area, succeeds and its value is in range. -/
theorem subscores_in_range (c : GeoPoint) (amenities : AmenitySet)
    (roads : List RoadRec) (area_sqm : ℚ) (hpos : 0 < area_sqm) :
    (0 ≤ calculate_safety_score c amenities ∧ calculate_safety_score c amenities ≤ 100) ∧
    (∃ q, calculate_efficiency_score roads area_sqm amenities = .ok q ∧ 0 ≤ q ∧ q ≤ 100) ∧
    (0 ≤ calculate_accessibility_score c amenities ∧
      calculate_accessibility_score c amenities ≤ 100) ∧
    (0 ≤ calculate_environmental_score amenities ∧
      calculate_environmental_score amenities ≤ 100) := by
  refine ⟨⟨?_, ?_⟩, ?_, ⟨?_, ?_⟩, ⟨?_, ?_⟩⟩
  · simp only [calculate_safety_score]
    refine le_min (le_trans (by norm_num : (0:ℚ) ≤ 50) ?_) (by norm_num)
    exact le_trans (prox_ge _ _ _ _ _ _ (by norm_num) (by norm_num) _)
      (le_trans (prox_ge _ _ _ _ _ _ (by norm_num) (by norm_num) _)
        (prox_ge _ _ _ _ _ _ (by norm_num) (by norm_num) _))
  · simp only [calculate_safety_score]
    exact min_le_right _ _
  · have hne : area_sqm / 1000000 ≠ 0 := by positivity
    simp only [calculate_efficiency_score]
    rw [if_neg hne]
    refine ⟨_, rfl, le_min (le_trans (by norm_num : (0:ℚ) ≤ 40) ?_) (by norm_num),
      min_le_right _ _⟩
    exact le_trans (le_trans (le_trans
        (le_ite_add3 40 20 15 10 (by norm_num) (by norm_num) (by norm_num))
        (le_ite_skip_add _ 15 (by norm_num)))
        (le_ite_add2 _ 10 5 (by norm_num) (by norm_num)))
      (le_ite_add2 _ 15 10 (by norm_num) (by norm_num))
  · simp only [calculate_accessibility_score]
    refine le_min (le_trans (by norm_num : (0:ℚ) ≤ 30) ?_) (by norm_num)
    exact le_trans (prox_ge _ _ _ _ _ _ (by norm_num) (by norm_num) _)
      (le_trans (prox_ge _ _ _ _ _ _ (by norm_num) (by norm_num) _)
        (le_trans (prox_ge _ _ _ _ _ _ (by norm_num) (by norm_num) _)
          (le_trans (prox_ge _ _ _ _ _ _ (by norm_num) (by norm_num) _)
            (le_trans (prox_ge _ _ _ _ _ _ (by norm_num) (by norm_num) _)
              (prox_ge _ _ _ _ _ _ (by norm_num) (by norm_num) _)))))
  · simp only [calculate_accessibility_score]
    exact min_le_right _ _
  · simp only [calculate_environmental_score]
    refine le_min (le_trans (by norm_num : (0:ℚ) ≤ 50) ?_) (by norm_num)
    exact le_ite_add3 50 25 15 10 (by norm_num) (by norm_num) (by norm_num)
  · simp only [calculate_environmental_score]
    exact min_le_right _ _

/-- Witness for C1 at the empty AmenitySet, no roads and area 1000000. -/
theorem subscores_in_range_witness :
    (0:ℚ) < 1000000 ∧
    ((0 ≤ calculate_safety_score origin emptyAmenities ∧
        calculate_safety_score origin emptyAmenities ≤ 100) ∧
      (∃ q, calculate_efficiency_score [] 1000000 emptyAmenities = .ok q ∧ 0 ≤ q ∧ q ≤ 100) ∧
      (0 ≤ calculate_accessibility_score origin emptyAmenities ∧
        calculate_accessibility_score origin emptyAmenities ≤ 100) ∧
      (0 ≤ calculate_environmental_score emptyAmenities ∧
        calculate_environmental_score emptyAmenities ≤ 100)) :=
  ⟨by norm_num, subscores_in_range origin emptyAmenities [] 1000000 (by norm_num)⟩

/-! ### C4 -/

/-- The assessment record computed for the reference input (every category
empty, zero roads, area 1000000 m2). -/
def referenceAssessment (aid tid created : String) : AssessmentRec := {
  id := aid,
  territory_id := tid,
  safety_score := 50,
  efficiency_score := 40,
  accessibility_score := 30,
  environmental_score := 50,
  overall_score := 42.5,
  recommendations := "• Улучшить инфраструктуру безопасности (полиция, пожарные станции)\n• Развить дорожную сеть и общественный транспорт\n• Добавить: школы, медучреждения, парки\n• Увеличить количество зеленых зон",
  amenities_count := amenity_types.map (fun a => (a, 0)),
  roads_count := 0,
  created_at := created }

lemma safety_empty (c : GeoPoint) : calculate_safety_score c emptyAmenities = 50 := rfl

lemma access_empty (c : GeoPoint) : calculate_accessibility_score c emptyAmenities = 30 := rfl

lemma env_empty : calculate_environmental_score emptyAmenities = 50 := rfl

lemma recs_empty : generate_recommendations 50 40 30 50 emptyAmenities =
    "• Улучшить инфраструктуру безопасности (полиция, пожарные станции)\n• Развить дорожную сеть и общественный транспорт\n• Добавить: школы, медучреждения, парки\n• Увеличить количество зеленых зон" := rfl

lemma eff_empty : calculate_efficiency_score [] 1000000 emptyAmenities = .ok 40 := by
  have hbus : aget emptyAmenities "bus_station" = [] := rfl
  have hpark : aget emptyAmenities "parking" = [] := rfl
  have hrest : aget emptyAmenities "restaurant" = [] := rfl
  have hcafe : aget emptyAmenities "cafe" = [] := rfl
  have hbank : aget emptyAmenities "bank" = [] := rfl
  simp only [calculate_efficiency_score, hbus, hpark, hrest, hcafe, hbank,
    List.length_nil, List.isEmpty_nil]
  norm_num

lemma fetch_all_err (lat lon : ℚ) (radius : ℕ) :
    get_amenities_in_area allErrResp lat lon radius = emptyAmenities := rfl

lemma roads_err (coords : Coordinates) :
    get_roads_in_polygon (.error ()) coords = [] := rfl

lemma assess_reference (c : GeoPoint) (coords : Coordinates) (aid tid created : String) :
    assess allErrResp (.error ()) c 1000000 coords aid tid created =
      .ok (referenceAssessment aid tid created) := by
  have hcnt : emptyAmenities.map (fun p => (p.1, p.2.length)) =
      amenity_types.map (fun a => (a, 0)) := rfl
  simp only [assess, fetch_all_err, roads_err, safety_empty, access_empty, env_empty,
    eff_empty, recs_empty, hcnt]
  simp only [referenceAssessment, Except.ok.injEq, AssessmentRec.mk.injEq,
    List.length_nil]
  norm_num [round2, round_eq]

/-- C4: on the reference input (all 14 categories empty, zero roads, area
1000000 m2) the scorers give safety 50, efficiency 40, accessibility 30 and
environmental 50, the stored overall score is 42.5, and all four
recommendation rules fire, in the order safety, efficiency, accessibility,
environmental. -/
theorem reference_empty_input_values (c : GeoPoint) (coords : Coordinates)
    (aid tid created : String) :
    calculate_safety_score c emptyAmenities = 50 ∧
    calculate_efficiency_score [] 1000000 emptyAmenities = .ok 40 ∧
    calculate_accessibility_score c emptyAmenities = 30 ∧
    calculate_environmental_score emptyAmenities = 50 ∧
    generate_recommendations 50 40 30 50 emptyAmenities =
      "• Улучшить инфраструктуру безопасности (полиция, пожарные станции)\n• Развить дорожную сеть и общественный транспорт\n• Добавить: школы, медучреждения, парки\n• Увеличить количество зеленых зон" ∧
    assess allErrResp (.error ()) c 1000000 coords aid tid created =
      .ok (referenceAssessment aid tid created) :=
  ⟨safety_empty c, eff_empty, access_empty c, env_empty, recs_empty,
    assess_reference c coords aid tid created⟩

/-! ### C2 -/

/-- C2: whenever the assessment block stores a record, the stored overall
score equals round2 of the mean of the four unrounded sub-scores (the
efficiency value q being the one the efficiency scorer returned), and each
stored sub-score is independently rounded to 2 decimals. -/
theorem overall_rounded_after_mean (amenResp : String → Except Unit (List AmenityRec))
    (roadsResp : Except Unit (List RoadRec)) (c : GeoPoint) (area_sqm : ℚ)
    (coords : Coordinates) (aid tid created : String) (q : ℚ) (a : AssessmentRec)
    (hq : calculate_efficiency_score (get_roads_in_polygon roadsResp coords) area_sqm
      (get_amenities_in_area amenResp c.lat c.lon 1000) = .ok q)
    (ha : assess amenResp roadsResp c area_sqm coords aid tid created = .ok a) :
    a.overall_score = round2
      ((calculate_safety_score c (get_amenities_in_area amenResp c.lat c.lon 1000) + q +
        calculate_accessibility_score c (get_amenities_in_area amenResp c.lat c.lon 1000) +
        calculate_environmental_score (get_amenities_in_area amenResp c.lat c.lon 1000)) / 4) ∧
    a.safety_score =
      round2 (calculate_safety_score c (get_amenities_in_area amenResp c.lat c.lon 1000)) ∧
    a.efficiency_score = round2 q ∧
    a.accessibility_score =
      round2 (calculate_accessibility_score c (get_amenities_in_area amenResp c.lat c.lon 1000)) ∧
    a.environmental_score =
      round2 (calculate_environmental_score (get_amenities_in_area amenResp c.lat c.lon 1000)) := by
  simp only [assess] at ha
  rw [hq] at ha
  simp only [Except.ok.injEq] at ha
  subst ha
  exact ⟨rfl, rfl, rfl, rfl, rfl⟩

/-- Witness for C2 on the reference input. -/
theorem overall_rounded_after_mean_witness :
    calculate_efficiency_score (get_roads_in_polygon (.error ()) []) 1000000
      (get_amenities_in_area allErrResp origin.lat origin.lon 1000) = .ok 40 ∧
    assess allErrResp (.error ()) origin 1000000 [] "a" "t" "now" =
      .ok (referenceAssessment "a" "t" "now") ∧
    ((referenceAssessment "a" "t" "now").overall_score = round2
      ((calculate_safety_score origin (get_amenities_in_area allErrResp origin.lat origin.lon 1000) + 40 +
        calculate_accessibility_score origin (get_amenities_in_area allErrResp origin.lat origin.lon 1000) +
        calculate_environmental_score (get_amenities_in_area allErrResp origin.lat origin.lon 1000)) / 4) ∧
    (referenceAssessment "a" "t" "now").safety_score = round2
      (calculate_safety_score origin (get_amenities_in_area allErrResp origin.lat origin.lon 1000)) ∧
    (referenceAssessment "a" "t" "now").efficiency_score = round2 40 ∧
    (referenceAssessment "a" "t" "now").accessibility_score = round2
      (calculate_accessibility_score origin (get_amenities_in_area allErrResp origin.lat origin.lon 1000)) ∧
    (referenceAssessment "a" "t" "now").environmental_score = round2
      (calculate_environmental_score (get_amenities_in_area allErrResp origin.lat origin.lon 1000))) := by
  have hq : calculate_efficiency_score (get_roads_in_polygon (.error ()) []) 1000000
      (get_amenities_in_area allErrResp origin.lat origin.lon 1000) = .ok 40 := by
    rw [fetch_all_err, roads_err]
    exact eff_empty
  have ha := assess_reference origin [] "a" "t" "now"
  exact ⟨hq, ha, overall_rounded_after_mean allErrResp (.error ()) origin 1000000 []
    "a" "t" "now" 40 (referenceAssessment "a" "t" "now") hq ha⟩

/-! ### C3 -/

lemma prox_eq_spec (c : GeoPoint) (l : List AmenityRec) (d1 p1 d2 p2 s : ℚ)
    (h : find_closest c l ≠ some 0) :
    proximityBonus c l d1 p1 d2 p2 s = s + specProximityBonus c l d1 p1 d2 p2 := by
  rcases hfc : find_closest c l with _ | d
  · have hnil : l = [] := (find_closest_eq_none_iff c l).1 hfc
    subst hnil
    simp [proximityBonus, specProximityBonus, find_closest]
  · have hne : l.isEmpty = false := by
      cases l
      · simp [find_closest] at hfc
      · rfl
    have hd0 : d ≠ 0 := by
      intro h0
      exact h (h0 ▸ hfc)
    unfold proximityBonus specProximityBonus
    rw [hfc, hne]
    simp only [Bool.false_eq_true, if_false, hd0, ne_eq, not_false_iff, true_and]
    split_ifs <;> ring

/-- C3 counterexample: with a single police amenity exactly at the centroid
the code awards no police bonus (Python float truthiness makes the 0.0
distance falsy), while the spec formula awards +20, so the claimed equality
fails at this input. -/
theorem safety_spec_mismatch_at_zero_distance :
    calculate_safety_score origin policeAtOrigin ≠ specSafetyScore origin policeAtOrigin := by
  have hd : find_closest origin (aget policeAtOrigin "police") = some 0 := by
    have : aget policeAtOrigin "police" = [recAtOrigin] := rfl
    rw [this]
    simp [find_closest, origin, recAtOrigin, haversine_same 0 0]
  have hfi : aget policeAtOrigin "fire_station" = [] := rfl
  have hho : aget policeAtOrigin "hospital" = [] := rfl
  have h1 : calculate_safety_score origin policeAtOrigin = 50 := by
    simp only [calculate_safety_score, hfi, hho, prox_nil]
    rw [prox_of_zero _ _ _ _ _ _ _ hd]
    norm_num
  have h2 : specSafetyScore origin policeAtOrigin = 70 := by
    simp only [specSafetyScore, hfi, hho]
    rw [show specProximityBonus origin (aget policeAtOrigin "police") 2000 20 5000 10 = 20 by
      unfold specProximityBonus
      rw [hd]
      norm_num]
    simp [specProximityBonus, find_closest]
    norm_num [min_def]
  rw [h1, h2]
  norm_num

/-- C3 (amended): the safety scorer matches the spec formula (base 50, the
three independent additive category bonuses with strict thresholds, empty
category contributing 0, clamp to 100) for every centroid and AmenitySet in
which no scored category has its nearest amenity at distance exactly 0 from
the centroid. -/
theorem safety_matches_spec_formula (c : GeoPoint) (amenities : AmenitySet)
    (h : ∀ cat ∈ (["police", "fire_station", "hospital"] : List String),
      find_closest c (aget amenities cat) ≠ some 0) :
    calculate_safety_score c amenities = specSafetyScore c amenities := by
  have hp := h "police" (by simp)
  have hf := h "fire_station" (by simp)
  have hh := h "hospital" (by simp)
  simp only [calculate_safety_score, specSafetyScore]
  rw [prox_eq_spec _ _ _ _ _ _ _ hp, prox_eq_spec _ _ _ _ _ _ _ hf,
    prox_eq_spec _ _ _ _ _ _ _ hh]

/-- Witness for the amended C3 at the empty AmenitySet. -/
theorem safety_matches_spec_formula_witness :
    (∀ cat ∈ (["police", "fire_station", "hospital"] : List String),
      find_closest origin (aget emptyAmenities cat) ≠ some 0) ∧
    calculate_safety_score origin emptyAmenities = specSafetyScore origin emptyAmenities := by
  have h : ∀ cat ∈ (["police", "fire_station", "hospital"] : List String),
      find_closest origin (aget emptyAmenities cat) ≠ some 0 := by
    intro cat hcat
    fin_cases hcat
    · rw [show aget emptyAmenities "police" = [] from rfl]
      simp [find_closest]
    · rw [show aget emptyAmenities "fire_station" = [] from rfl]
      simp [find_closest]
    · rw [show aget emptyAmenities "hospital" = [] from rfl]
      simp [find_closest]
  exact ⟨h, safety_matches_spec_formula origin emptyAmenities h⟩

/-! ### C9 -/

/-- C9: when a scored category's nearest amenity is at distance exactly 0
from the centroid, the safety and accessibility scorers treat it exactly like
an emptied category: prepending an empty override for it changes neither
score, even though find_closest itself distinguishes some 0 from none. -/
theorem zero_distance_scored_as_absent (c : GeoPoint) (amenities : AmenitySet)
    (cat : String)
    (hcat : cat ∈ (["police", "fire_station", "hospital", "school", "pharmacy",
      "park", "post_office", "library"] : List String))
    (h : find_closest c (aget amenities cat) = some 0) :
    calculate_safety_score c amenities =
      calculate_safety_score c ((cat, []) :: amenities) ∧
    calculate_accessibility_score c amenities =
      calculate_accessibility_score c ((cat, []) :: amenities) := by
  fin_cases hcat
  · constructor
    · simp only [calculate_safety_score,
        aget_cons_self amenities "police" [],
        aget_cons_ne amenities "police" [] "fire_station" (by decide),
        aget_cons_ne amenities "police" [] "hospital" (by decide), prox_nil]
      rw [prox_of_zero _ _ _ _ _ _ _ h]
    · simp only [calculate_accessibility_score,
        aget_cons_ne amenities "police" [] "school" (by decide),
        aget_cons_ne amenities "police" [] "hospital" (by decide),
        aget_cons_ne amenities "police" [] "pharmacy" (by decide),
        aget_cons_ne amenities "police" [] "park" (by decide),
        aget_cons_ne amenities "police" [] "post_office" (by decide),
        aget_cons_ne amenities "police" [] "library" (by decide)]
  · constructor
    · simp only [calculate_safety_score,
        aget_cons_self amenities "fire_station" [],
        aget_cons_ne amenities "fire_station" [] "police" (by decide),
        aget_cons_ne amenities "fire_station" [] "hospital" (by decide), prox_nil]
      rw [prox_of_zero _ _ _ _ _ _ _ h]
    · simp only [calculate_accessibility_score,
        aget_cons_ne amenities "fire_station" [] "school" (by decide),
        aget_cons_ne amenities "fire_station" [] "hospital" (by decide),
        aget_cons_ne amenities "fire_station" [] "pharmacy" (by decide),
        aget_cons_ne amenities "fire_station" [] "park" (by decide),
        aget_cons_ne amenities "fire_station" [] "post_office" (by decide),
        aget_cons_ne amenities "fire_station" [] "library" (by decide)]
  · constructor
    · simp only [calculate_safety_score,
        aget_cons_self amenities "hospital" [],
        aget_cons_ne amenities "hospital" [] "police" (by decide),
        aget_cons_ne amenities "hospital" [] "fire_station" (by decide), prox_nil]
      rw [prox_of_zero _ _ _ _ _ _ _ h]
    · simp only [calculate_accessibility_score,
        aget_cons_self amenities "hospital" [],
        aget_cons_ne amenities "hospital" [] "school" (by decide),
        aget_cons_ne amenities "hospital" [] "pharmacy" (by decide),
        aget_cons_ne amenities "hospital" [] "park" (by decide),
        aget_cons_ne amenities "hospital" [] "post_office" (by decide),
        aget_cons_ne amenities "hospital" [] "library" (by decide), prox_nil]
      rw [prox_of_zero _ _ _ _ _ _ _ h]
  · constructor
    · simp only [calculate_safety_score,
        aget_cons_ne amenities "school" [] "police" (by decide),
        aget_cons_ne amenities "school" [] "fire_station" (by decide),
        aget_cons_ne amenities "school" [] "hospital" (by decide)]
    · simp only [calculate_accessibility_score,
        aget_cons_self amenities "school" [],
        aget_cons_ne amenities "school" [] "hospital" (by decide),
        aget_cons_ne amenities "school" [] "pharmacy" (by decide),
        aget_cons_ne amenities "school" [] "park" (by decide),
        aget_cons_ne amenities "school" [] "post_office" (by decide),
        aget_cons_ne amenities "school" [] "library" (by decide), prox_nil]
      rw [prox_of_zero _ _ _ _ _ _ _ h]
  · constructor
    · simp only [calculate_safety_score,
        aget_cons_ne amenities "pharmacy" [] "police" (by decide),
        aget_cons_ne amenities "pharmacy" [] "fire_station" (by decide),
        aget_cons_ne amenities "pharmacy" [] "hospital" (by decide)]
    · simp only [calculate_accessibility_score,
        aget_cons_self amenities "pharmacy" [],
        aget_cons_ne amenities "pharmacy" [] "school" (by decide),
        aget_cons_ne amenities "pharmacy" [] "hospital" (by decide),
        aget_cons_ne amenities "pharmacy" [] "park" (by decide),
        aget_cons_ne amenities "pharmacy" [] "post_office" (by decide),
        aget_cons_ne amenities "pharmacy" [] "library" (by decide), prox_nil]
      rw [prox_of_zero _ _ _ _ _ _ _ h]
  · constructor
    · simp only [calculate_safety_score,
        aget_cons_ne amenities "park" [] "police" (by decide),
        aget_cons_ne amenities "park" [] "fire_station" (by decide),
        aget_cons_ne amenities "park" [] "hospital" (by decide)]
    · simp only [calculate_accessibility_score,
        aget_cons_self amenities "park" [],
        aget_cons_ne amenities "park" [] "school" (by decide),
        aget_cons_ne amenities "park" [] "hospital" (by decide),
        aget_cons_ne amenities "park" [] "pharmacy" (by decide),
        aget_cons_ne amenities "park" [] "post_office" (by decide),
        aget_cons_ne amenities "park" [] "library" (by decide), prox_nil]
      rw [prox_of_zero _ _ _ _ _ _ _ h]
  · constructor
    · simp only [calculate_safety_score,
        aget_cons_ne amenities "post_office" [] "police" (by decide),
        aget_cons_ne amenities "post_office" [] "fire_station" (by decide),
        aget_cons_ne amenities "post_office" [] "hospital" (by decide)]
    · simp only [calculate_accessibility_score,
        aget_cons_self amenities "post_office" [],
        aget_cons_ne amenities "post_office" [] "school" (by decide),
        aget_cons_ne amenities "post_office" [] "hospital" (by decide),
        aget_cons_ne amenities "post_office" [] "pharmacy" (by decide),
        aget_cons_ne amenities "post_office" [] "park" (by decide),
        aget_cons_ne amenities "post_office" [] "library" (by decide), prox_nil]
      rw [prox_of_zero _ _ _ _ _ _ _ h]
  · constructor
    · simp only [calculate_safety_score,
        aget_cons_ne amenities "library" [] "police" (by decide),
        aget_cons_ne amenities "library" [] "fire_station" (by decide),
        aget_cons_ne amenities "library" [] "hospital" (by decide)]
    · simp only [calculate_accessibility_score,
        aget_cons_self amenities "library" [],
        aget_cons_ne amenities "library" [] "school" (by decide),
        aget_cons_ne amenities "library" [] "hospital" (by decide),
        aget_cons_ne amenities "library" [] "pharmacy" (by decide),
        aget_cons_ne amenities "library" [] "park" (by decide),
        aget_cons_ne amenities "library" [] "post_office" (by decide), prox_nil]
      rw [prox_of_zero _ _ _ _ _ _ _ h]

/-- Witness for C9: a police amenity exactly at the centroid. -/
theorem zero_distance_scored_as_absent_witness :
    ("police" ∈ (["police", "fire_station", "hospital", "school", "pharmacy",
      "park", "post_office", "library"] : List String)) ∧
    find_closest origin (aget policeAtOrigin "police") = some 0 ∧
    (calculate_safety_score origin policeAtOrigin =
        calculate_safety_score origin (("police", []) :: policeAtOrigin) ∧
      calculate_accessibility_score origin policeAtOrigin =
        calculate_accessibility_score origin (("police", []) :: policeAtOrigin)) := by
  have hd : find_closest origin (aget policeAtOrigin "police") = some 0 := by
    rw [show aget policeAtOrigin "police" = [recAtOrigin] from rfl]
    simp [find_closest, origin, recAtOrigin, haversine_same 0 0]
  exact ⟨by decide, hd,
    zero_distance_scored_as_absent origin policeAtOrigin "police" (by decide) hd⟩

/-! ### C10 -/

/-- C10: when accessibility is below 60 but school, hospital and park all
have non-empty amenity lists, the accessibility rule adds no message; if the
other three scores are at least 60 the output is exactly the single
well-developed message, even though the accessibility threshold fired. -/
theorem accessibility_rule_silent_when_present
    (safety efficiency accessibility environmental : ℚ) (amenities : AmenitySet)
    (hacc : accessibility < 60)
    (hs : 60 ≤ safety) (he : 60 ≤ efficiency) (henv : 60 ≤ environmental)
    (h1 : (aget amenities "school").isEmpty = false)
    (h2 : (aget amenities "hospital").isEmpty = false)
    (h3 : (aget amenities "park").isEmpty = false) :
    generate_recommendations safety efficiency accessibility environmental amenities =
      "• Территория хорошо развита. Поддерживайте текущее состояние." := by
  simp only [generate_recommendations, h1, h2, h3]
  rw [if_neg (not_lt.2 hs), if_neg (not_lt.2 he), if_pos hacc, if_neg (not_lt.2 henv)]
  simp only [List.append_nil, List.nil_append, List.isEmpty_nil, if_pos]
  rfl

/-- Witness for C10: accessibility 30, the other scores 60, all three
categories present. -/
theorem accessibility_rule_silent_when_present_witness :
    ((30:ℚ) < 60 ∧ (60:ℚ) ≤ 60 ∧
      (aget [("school", [recAtOrigin]), ("hospital", [recAtOrigin]),
        ("park", [recAtOrigin])] "school").isEmpty = false ∧
      (aget [("school", [recAtOrigin]), ("hospital", [recAtOrigin]),
        ("park", [recAtOrigin])] "hospital").isEmpty = false ∧
      (aget [("school", [recAtOrigin]), ("hospital", [recAtOrigin]),
        ("park", [recAtOrigin])] "park").isEmpty = false) ∧
    generate_recommendations 60 60 30 60
      [("school", [recAtOrigin]), ("hospital", [recAtOrigin]), ("park", [recAtOrigin])] =
      "• Территория хорошо развита. Поддерживайте текущее состояние." :=
  ⟨⟨by norm_num, by norm_num, rfl, rfl, rfl⟩,
    accessibility_rule_silent_when_present 60 60 30 60
      [("school", [recAtOrigin]), ("hospital", [recAtOrigin]), ("park", [recAtOrigin])]
      (by norm_num) (by norm_num) (by norm_num) (by norm_num) rfl rfl rfl⟩

/-! ### C6 -/

/-- An external amenity response that fails for exactly one category. -/
def failPoliceResp : String → Except Unit (List AmenityRec) :=
  fun cat => if cat = "police" then .error () else .ok [recAtOrigin]

/-- C6: the amenity fetch queries the 14 categories independently: the
returned mapping always carries exactly the 14 category keys, and each
category's value is the records of its own successful query, or the empty
list when that category's query failed — other categories are unaffected and
the call as a whole is total. -/
theorem amenity_fetch_isolates_failures (resp : String → Except Unit (List AmenityRec))
    (lat lon : ℚ) (radius : ℕ) :
    (get_amenities_in_area resp lat lon radius).map Prod.fst = amenity_types ∧
    ∀ cat ∈ amenity_types,
      lookupStr (get_amenities_in_area resp lat lon radius) cat =
        some (match resp cat with | .ok l => l | .error _ => []) := by
  constructor
  · rfl
  · intro cat hcat
    exact lookupStr_map_apply
      (fun amenity => match resp amenity with | .ok l => l | .error _ => [])
      amenity_types cat hcat

/-- Witness for C6: a response failing only for police maps police to the
empty list while keeping the key present. -/
theorem amenity_fetch_isolates_failures_witness :
    ("police" ∈ amenity_types ∧ "school" ∈ amenity_types) ∧
    (get_amenities_in_area failPoliceResp 1 2 1000).map Prod.fst = amenity_types ∧
    lookupStr (get_amenities_in_area failPoliceResp 1 2 1000) "police" =
      some (match failPoliceResp "police" with | .ok l => l | .error _ => []) ∧
    lookupStr (get_amenities_in_area failPoliceResp 1 2 1000) "school" =
      some (match failPoliceResp "school" with | .ok l => l | .error _ => []) :=
  ⟨⟨by decide, by decide⟩,
    (amenity_fetch_isolates_failures failPoliceResp 1 2 1000).1,
    (amenity_fetch_isolates_failures failPoliceResp 1 2 1000).2 "police" (by decide),
    (amenity_fetch_isolates_failures failPoliceResp 1 2 1000).2 "school" (by decide)⟩

/-! ### C5 and C7 -/

lemma eff_zero_area (roads : List RoadRec) (amenities : AmenitySet) :
    calculate_efficiency_score roads 0 amenities = .error () := by
  simp only [calculate_efficiency_score]
  norm_num

lemma assess_zero_area (amenResp : String → Except Unit (List AmenityRec))
    (roadsResp : Except Unit (List RoadRec)) (c : GeoPoint) (coords : Coordinates)
    (aid tid created : String) :
    assess amenResp roadsResp c 0 coords aid tid created = .error () := by
  simp only [assess, eff_zero_area]

/-- A degenerate (collinear, zero-area) GeoJSON ring for project p. -/
def zeroAreaInput : TerritoryCreate :=
  ⟨"flat territory", "p", [[(0, 0), (1, 0), (2, 0), (0, 0)]]⟩

/-- A store holding the single project p and nothing else. -/
def initialState : StoreState := ⟨[("p", 0)], [], []⟩

/-- C5: when the assessment block raises, territory creation still succeeds:
the territory record (with its id, geometry, area and centroid) is stored and
returned, the assessments store is untouched — no partial or zeroed record —
and the subsequent assessment lookup for the fresh territory id reports not
found. -/
theorem failed_assessment_not_stored (amenResp : String → Except Unit (List AmenityRec))
    (roadsResp : Except Unit (List RoadRec)) (tid aid created : String)
    (input : TerritoryCreate) (st : StoreState) (cnt : ℕ) (er : Unit)
    (hp : lookupStr st.projects input.project_id = some cnt)
    (he : assess amenResp roadsResp (shapelyCentroid (ringOf input.coordinates))
      (shapelyArea (ringOf input.coordinates) * 111320 * 111320) input.coordinates
      aid tid created = .error er)
    (hfresh : lookupStr st.assessments tid = none) :
    ∃ st2 t, create_territory amenResp roadsResp tid aid created input st = .ok (st2, t) ∧
      lookupStr st2.territories tid = some t ∧
      t.id = tid ∧ t.coordinates = input.coordinates ∧
      t.area_sqm = shapelyArea (ringOf input.coordinates) * 111320 * 111320 ∧
      t.centroid = shapelyCentroid (ringOf input.coordinates) ∧
      st2.assessments = st.assessments ∧
      get_assessment st2 tid = .error () := by
  simp only [create_territory, hp]
  rw [he]
  refine ⟨_, _, rfl, ?_, rfl, rfl, rfl, rfl, rfl, ?_⟩
  · simp [lookupStr]
  · simp [get_assessment, hfresh]

/-- Witness for C5 at the degenerate zero-area input, where the efficiency
scorer's division raises. -/
theorem failed_assessment_not_stored_witness :
    lookupStr initialState.projects zeroAreaInput.project_id = some 0 ∧
    assess allErrResp (.error ()) (shapelyCentroid (ringOf zeroAreaInput.coordinates))
      (shapelyArea (ringOf zeroAreaInput.coordinates) * 111320 * 111320)
      zeroAreaInput.coordinates "a" "t1" "now" = .error () ∧
    lookupStr initialState.assessments "t1" = none ∧
    (∃ st2 t, create_territory allErrResp (.error ()) "t1" "a" "now" zeroAreaInput
        initialState = .ok (st2, t) ∧
      lookupStr st2.territories "t1" = some t ∧
      t.id = "t1" ∧ t.coordinates = zeroAreaInput.coordinates ∧
      t.area_sqm = shapelyArea (ringOf zeroAreaInput.coordinates) * 111320 * 111320 ∧
      t.centroid = shapelyCentroid (ringOf zeroAreaInput.coordinates) ∧
      st2.assessments = initialState.assessments ∧
      get_assessment st2 "t1" = .error ()) := by
  have harea : shapelyArea (ringOf zeroAreaInput.coordinates) = 0 := by
    norm_num [shapelyArea, shoelaceSum, zeroAreaInput, ringOf, List.rotate]
  have he : assess allErrResp (.error ())
      (shapelyCentroid (ringOf zeroAreaInput.coordinates))
      (shapelyArea (ringOf zeroAreaInput.coordinates) * 111320 * 111320)
      zeroAreaInput.coordinates "a" "t1" "now" = .error () := by
    rw [show shapelyArea (ringOf zeroAreaInput.coordinates) * 111320 * 111320 = 0 by
      rw [harea]; norm_num]
    exact assess_zero_area allErrResp (.error ()) _ _ "a" "t1" "now"
  exact ⟨rfl, he, rfl,
    failed_assessment_not_stored allErrResp (.error ()) "t1" "a" "now" zeroAreaInput
      initialState 0 () rfl he rfl⟩

/-- C7: for a zero-area polygon the create-territory operation completes
normally: the division by zero inside the efficiency scorer is swallowed by
the orchestrator, the territory is persisted, and no assessment is stored. -/
theorem zero_area_creation_completes (amenResp : String → Except Unit (List AmenityRec))
    (roadsResp : Except Unit (List RoadRec)) (tid aid created : String)
    (input : TerritoryCreate) (st : StoreState) (cnt : ℕ)
    (hp : lookupStr st.projects input.project_id = some cnt)
    (h0 : shapelyArea (ringOf input.coordinates) = 0) :
    ∃ st2 t, create_territory amenResp roadsResp tid aid created input st = .ok (st2, t) ∧
      lookupStr st2.territories tid = some t ∧
      st2.assessments = st.assessments := by
  have he : assess amenResp roadsResp (shapelyCentroid (ringOf input.coordinates))
      (shapelyArea (ringOf input.coordinates) * 111320 * 111320) input.coordinates
      aid tid created = .error () := by
    rw [show shapelyArea (ringOf input.coordinates) * 111320 * 111320 = 0 by
      rw [h0]; norm_num]
    exact assess_zero_area amenResp roadsResp _ _ aid tid created
  simp only [create_territory, hp]
  rw [he]
  exact ⟨_, _, rfl, by simp [lookupStr], rfl⟩

/-- Witness for C7 at the degenerate zero-area input. -/
theorem zero_area_creation_completes_witness :
    lookupStr initialState.projects zeroAreaInput.project_id = some 0 ∧
    shapelyArea (ringOf zeroAreaInput.coordinates) = 0 ∧
    (∃ st2 t, create_territory allErrResp (.error ()) "t1" "a" "now" zeroAreaInput
        initialState = .ok (st2, t) ∧
      lookupStr st2.territories "t1" = some t ∧
      st2.assessments = initialState.assessments) := by
  have harea : shapelyArea (ringOf zeroAreaInput.coordinates) = 0 := by
    norm_num [shapelyArea, shoelaceSum, zeroAreaInput, ringOf, List.rotate]
  exact ⟨rfl, harea,
    zero_area_creation_completes allErrResp (.error ()) "t1" "a" "now" zeroAreaInput
      initialState 0 rfl harea⟩
